import Mathlib

/-!
Verification of the googlecompute Packer plugin against its specification.

The definitions below are shallow embeddings of the corresponding Go
functions of the repository; each section names the source file it was
translated from. Machine integers are modelled as Int or Nat, mutation as
explicit state passing, fallible operations as Except or Option, and the
asynchronous driver calls as explicit call traces.
-/

namespace PackerGce

/-! ## BlockDevice model and validation

Translated from lib/common (the block-device portion of client_keys.go):
the BlockDevice struct, hasDiskCreationArgs, prepareDiskCreate and Prepare.
The Go code mutates the receiver through a pointer and returns a list of
errors; here Prepare returns the updated device together with the error
list. The uuid that Go draws from uuid.NewV4 for generated disk names is
passed in as an argument. -/

/-- CustomerEncryptionKey, translated from the encryption-key portion of
client_keys.go. -/
structure CustomerEncryptionKey where
  kmsKeyName : String := ""
  rawKey : String := ""
deriving Repr, DecidableEq

/-- BlockDevice, translated from client_keys.go. The sourceImage field is
modelled from the spec: the BlockDevice variant in src lacks it, but the
test suite for BlockDevice.Prepare constructs devices with a SourceImage
field, so the current struct of the repository carries it. -/
structure BlockDevice where
  attachmentMode : String := ""
  createImage : Bool := false
  deviceName : String := ""
  diskEncryptionKey : CustomerEncryptionKey := {}
  diskName : String := ""
  interfaceType : String := ""
  iops : Int := 0
  keepDevice : Bool := false
  replicaZones : List String := []
  sourceImage : String := ""
  sourceVolume : String := ""
  volumeSize : Int := 0
  volumeType : String := ""
  zone : String := ""
deriving Repr, DecidableEq

/-- Lowercase-letter test used by the disk-name pattern. -/
def isLowerChar (c : Char) : Bool := 'a' ≤ c && c ≤ 'z'

/-- Digit test used by the disk-name pattern. -/
def isDigitChar (c : Char) : Bool := '0' ≤ c && c ≤ '9'

/-- Character class [-a-z0-9] of the disk-name pattern. -/
def isNameTailChar (c : Char) : Bool := c = '-' || isLowerChar c || isDigitChar c

/-- Character class [a-z0-9] that must end the disk name. -/
def isNameEndChar (c : Char) : Bool := isLowerChar c || isDigitChar c

/-- Matcher for ([-a-z0-9]*[a-z0-9])? on the tail of the disk name. -/
def nameTailMatch : List Char → Bool
  | [] => true
  | [c] => isNameEndChar c
  | c :: rest => isNameTailChar c && nameTailMatch rest

/-- diskNameRegex of client_keys.go: the pattern [a-z]([-a-z0-9]*[a-z0-9])?
anchored on both sides. -/
def diskNameMatch (s : String) : Bool :=
  match s.toList with
  | [] => false
  | c :: rest => isLowerChar c && nameTailMatch rest

/-- Combined error produced when source_volume is set together with disk
creation arguments. The first five bullet lines are the literal message of
prepareDiskCreate; the source_image line is modelled from the spec, which
states that source_image participates in the same exclusivity check. -/
def sourceVolumeConflictError : String :=
  "when specifying a source_volume, the following configuration arguments cannot be used:\n* disk_name\n* volume_type\n* volume_size\n* iops\n* keep_device\n* source_image"

/-- Error for an unknown volume type. The Go message also interpolates the
offending value; the claims only depend on the error identity, so the fixed
text stands for the whole family. -/
def invalidVolumeTypeError : String :=
  "A valid volume type was not specified"

/-- Listing of the accepted volume types, from volumeTypeError. -/
def volumeTypeListError : String :=
  "valid volume types are: scratch, pd-standard, pd-balanced, pd-ssd and pd-extreme"

/-- Error for IOPS on a volume type other than pd-extreme. -/
def iopsOnlyExtremeError : String :=
  "IOPS may only be specified for \"pd-extreme\" volumes"

/-- Error for IOPS outside of the accepted bounds. -/
def iopsRangeError : String :=
  "Requested IOPS must be >= 10000 and <= 120000"

/-- Error for keep_device on a scratch volume. -/
def scratchKeepDeviceError : String :=
  "Scratch volumes cannot be kept after the instance is shutdown"

/-- Error for disk_name on a scratch volume. -/
def scratchDiskNameError : String :=
  "Scratch volumes cannot have a name specified."

/-- Error for a missing volume_size. -/
def volumeSizeRequiredError : String :=
  "volume_size must be specified"

/-- Error for a non-compliant disk name; the Go message also interpolates
the offending name. -/
def diskNameNonCompliantError : String :=
  "Disk name is non-compliant."

/-- Explanation accompanying a non-compliant disk name. -/
def diskNameRuleError : String :=
  "The name must be 1-63 characters long and comply to the regexp \x27[a-z]([-a-z0-9]*[a-z0-9])?\x27"

/-- Error for an invalid interface type; the Go message also interpolates
the offending value. -/
def invalidInterfaceTypeError : String :=
  "Invalid interface_type"

/-- Listing of the accepted interface types. -/
def interfaceTypeValuesError : String :=
  "Valid values are SCSI or NVME"

/-- Error for an invalid attachment mode; the Go message also interpolates
the offending value. -/
def invalidAttachmentModeError : String :=
  "Invalid attachment_mode"

/-- Listing of the accepted attachment modes. -/
def attachmentModeValuesError : String :=
  "Valid values are READ_ONLY or READ_WRITE"

/-- Error for a device_name on a scratch volume. -/
def scratchDeviceNameError : String :=
  "Scratch volumes may not have a device_name attached to them"

/-- Error for create_image on a scratch volume. -/
def scratchCreateImageError : String :=
  "Scratch volumes may not have create_image enabled"

/-- Membership test of the volume-type switch in prepareDiskCreate. -/
def validVolumeType (t : String) : Bool :=
  t == "scratch" || t == "pd-standard" || t == "pd-balanced" || t == "pd-ssd" || t == "pd-extreme"

/-- hasDiskCreationArgs of client_keys.go; the sourceImage disjunct is
modelled from the spec (see BlockDevice.sourceImage). -/
def BlockDevice.hasDiskCreationArgs (bd : BlockDevice) : Bool :=
  bd.volumeSize != 0 || bd.volumeType != "" || bd.diskName != "" || bd.iops != 0 ||
    bd.keepDevice || bd.sourceImage != ""

/-- prepareDiskCreate of client_keys.go. Returns the possibly renamed
device together with the accumulated errors. -/
def BlockDevice.prepareDiskCreate (uuid : String) (bd : BlockDevice) : BlockDevice × List String :=
  if bd.sourceVolume != "" && bd.hasDiskCreationArgs then
    (bd, [sourceVolumeConflictError])
  else if bd.sourceVolume != "" then
    (bd, [])
  else if !validVolumeType bd.volumeType then
    (bd, [invalidVolumeTypeError, volumeTypeListError])
  else
    let errs : List String :=
      (if bd.iops != 0 && bd.volumeType != "pd-extreme" then [iopsOnlyExtremeError] else [])
      ++ (if bd.iops != 0 && (decide (bd.iops < 10000) || decide (bd.iops > 120000)) then
            [iopsRangeError] else [])
      ++ (if bd.volumeType == "scratch" && bd.keepDevice then [scratchKeepDeviceError] else [])
      ++ (if bd.volumeType == "scratch" && bd.diskName != "" then [scratchDiskNameError] else [])
      ++ (if bd.volumeSize == 0 then [volumeSizeRequiredError] else [])
    if bd.volumeType == "scratch" then
      (bd, errs)
    else
      let errs := errs ++
        (if bd.diskName != "" && (!diskNameMatch bd.diskName || decide (bd.diskName.length > 63)) then
          [diskNameNonCompliantError, diskNameRuleError] else [])
      if bd.diskName == "" then
        ({ bd with diskName := "packer-" ++ uuid }, errs)
      else
        (bd, errs)

/-- Prepare of client_keys.go: disk-creation validation, the interface and
attachment switches with their defaults, the scratch-volume restrictions on
device_name and create_image, and the forcing of keep_device for devices
referencing a source volume. -/
def BlockDevice.prepare (uuid : String) (bd0 : BlockDevice) : BlockDevice × List String :=
  let p := bd0.prepareDiskCreate uuid
  let bd := p.1
  let errs := p.2
  let q : BlockDevice × List String :=
    if bd.interfaceType == "SCSI" || bd.interfaceType == "NVME" then (bd, errs)
    else if bd.interfaceType == "" then ({ bd with interfaceType := "SCSI" }, errs)
    else (bd, errs ++ [invalidInterfaceTypeError, interfaceTypeValuesError])
  let bd := q.1
  let errs := q.2
  let r : BlockDevice × List String :=
    if bd.attachmentMode == "READ_ONLY" || bd.attachmentMode == "READ_WRITE" then (bd, errs)
    else if bd.attachmentMode == "" then ({ bd with attachmentMode := "READ_WRITE" }, errs)
    else (bd, errs ++ [invalidAttachmentModeError, attachmentModeValuesError])
  let bd := r.1
  let errs := r.2
  let errs := errs ++
    (if bd.deviceName != "" && bd.volumeType == "scratch" then [scratchDeviceNameError] else [])
  let errs := errs ++
    (if bd.createImage && bd.volumeType == "scratch" then [scratchCreateImageError] else [])
  let bd := if bd.sourceVolume != "" then { bd with keepDevice := true } else bd
  (bd, errs)

/-- The device returned by prepareDiskCreate only ever differs from its
input in the diskName field. -/
theorem prepareDiskCreate_fields (uuid : String) (bd : BlockDevice) :
    ((bd.prepareDiskCreate uuid).1).sourceVolume = bd.sourceVolume ∧
    ((bd.prepareDiskCreate uuid).1).interfaceType = bd.interfaceType ∧
    ((bd.prepareDiskCreate uuid).1).attachmentMode = bd.attachmentMode ∧
    ((bd.prepareDiskCreate uuid).1).keepDevice = bd.keepDevice := by
  unfold BlockDevice.prepareDiskCreate
  split_ifs <;> simp

/-- Errors reported by prepareDiskCreate survive into the final error list
of Prepare. -/
theorem mem_prepare_of_mem_prepareDiskCreate (uuid : String) (bd : BlockDevice)
    (e : String) (h : e ∈ (bd.prepareDiskCreate uuid).2) : e ∈ (bd.prepare uuid).2 := by
  unfold BlockDevice.prepare
  dsimp only
  split_ifs <;> simp_all

/-- Prepare sets keep_device whenever source_volume is configured. -/
theorem prepare_keepDevice_of_sourceVolume (uuid : String) (bd : BlockDevice)
    (h : bd.sourceVolume ≠ "") : ((bd.prepare uuid).1).keepDevice = true := by
  have hs := (prepareDiskCreate_fields uuid bd).1
  unfold BlockDevice.prepare
  dsimp only
  split_ifs <;> simp_all

/-- Characterization of the error list produced by prepareDiskCreate for a
device without a source volume. -/
theorem prepareDiskCreate_errs (uuid : String) (bd : BlockDevice) (hsv : bd.sourceVolume = "") :
    (bd.prepareDiskCreate uuid).2 =
      (if !validVolumeType bd.volumeType then [invalidVolumeTypeError, volumeTypeListError]
      else
        (if bd.iops != 0 && bd.volumeType != "pd-extreme" then [iopsOnlyExtremeError] else [])
        ++ (if bd.iops != 0 && (decide (bd.iops < 10000) || decide (bd.iops > 120000)) then
              [iopsRangeError] else [])
        ++ (if bd.volumeType == "scratch" && bd.keepDevice then [scratchKeepDeviceError] else [])
        ++ (if bd.volumeType == "scratch" && bd.diskName != "" then [scratchDiskNameError] else [])
        ++ (if bd.volumeSize == 0 then [volumeSizeRequiredError] else [])
        ++ (if bd.volumeType == "scratch" then []
            else if bd.diskName != "" && (!diskNameMatch bd.diskName || decide (bd.diskName.length > 63)) then
              [diskNameNonCompliantError, diskNameRuleError] else [])) := by
  unfold BlockDevice.prepareDiskCreate
  simp only [hsv, bne_self_eq_false, Bool.false_and, Bool.false_eq_true, if_false]
  split_ifs <;> simp

/-- Concrete pd-extreme device used by the C5 boundary checks. -/
def extremeDev (iops : Int) : BlockDevice :=
  { volumeType := "pd-extreme", volumeSize := 125, iops := iops }

/-- Concrete pd-standard device used by the C5 boundary checks. -/
def stdDevIops (iops : Int) : BlockDevice :=
  { volumeType := "pd-standard", volumeSize := 125, iops := iops }

/-- C4: Prepare rejects a BlockDevice that sets source_volume together with
any of disk_name, volume_type, volume_size, iops, keep_device or
source_image, the disk-create validation producing exactly the single
combined error listing the offending fields; and any device with a
source_volume that passes validation ends up with keep_device forced to
true. -/
theorem C4_source_volume_exclusivity :
    (∀ (uuid : String) (bd : BlockDevice), bd.sourceVolume ≠ "" →
      (bd.diskName ≠ "" ∨ bd.volumeType ≠ "" ∨ bd.volumeSize ≠ 0 ∨ bd.iops ≠ 0 ∨
        bd.keepDevice = true ∨ bd.sourceImage ≠ "") →
      (bd.prepareDiskCreate uuid).2 = [sourceVolumeConflictError] ∧
        sourceVolumeConflictError ∈ (bd.prepare uuid).2) ∧
    (∀ (uuid : String) (bd : BlockDevice), bd.sourceVolume ≠ "" → (bd.prepare uuid).2 = [] →
      ((bd.prepare uuid).1).keepDevice = true) := by
  constructor
  · intro uuid bd hsv hconf
    have hargs : bd.hasDiskCreationArgs = true := by
      unfold BlockDevice.hasDiskCreationArgs
      rcases hconf with h | h | h | h | h | h <;> simp [h]
    have hfirst : (bd.prepareDiskCreate uuid).2 = [sourceVolumeConflictError] := by
      unfold BlockDevice.prepareDiskCreate
      simp [hargs, hsv]
    exact ⟨hfirst, mem_prepare_of_mem_prepareDiskCreate _ _ _ (by rw [hfirst]; simp)⟩
  · intro uuid bd hsv _
    exact prepare_keepDevice_of_sourceVolume uuid bd hsv

/-- Concrete conflicting device used by the C4 witness. -/
def c4Dev : BlockDevice :=
  { sourceVolume := "zones/us-central1-a/disks/source-disk", keepDevice := true }

/-- Concrete conflict-free device used by the C4 witness. -/
def c4DevOk : BlockDevice :=
  { sourceVolume := "zones/us-central1-a/disks/source-disk" }

/-- Witness for C4 at a concrete device carrying both source_volume and
keep_device, plus a concrete conflict-free device. -/
theorem C4_source_volume_exclusivity_witness :
    (c4Dev.prepareDiskCreate "u").2 = [sourceVolumeConflictError] ∧
    sourceVolumeConflictError ∈ (c4Dev.prepare "u").2 ∧
    ((c4DevOk.prepare "u").1).keepDevice = true := by
  refine ⟨(C4_source_volume_exclusivity.1 "u" c4Dev (by decide) (by decide)).1,
    (C4_source_volume_exclusivity.1 "u" c4Dev (by decide) (by decide)).2,
    C4_source_volume_exclusivity.2 "u" c4DevOk (by decide) (by decide)⟩

/-- C5: for a device without source_volume, a nonzero iops value survives
validation exactly when the volume type is pd-extreme and the value lies in
[10000, 120000]; the boundary and cross-type cases behave as stated. -/
theorem C5_iops_bounds :
    (∀ (uuid : String) (bd : BlockDevice), bd.sourceVolume = "" → bd.iops ≠ 0 →
      (bd.prepareDiskCreate uuid).2 = [] →
      (bd.volumeType = "pd-extreme" ∧ 10000 ≤ bd.iops ∧ bd.iops ≤ 120000)) ∧
    (∀ (uuid : String) (bd : BlockDevice), bd.sourceVolume = "" →
      bd.volumeType = "pd-extreme" → 10000 ≤ bd.iops → bd.iops ≤ 120000 →
      iopsOnlyExtremeError ∉ (bd.prepareDiskCreate uuid).2 ∧
      iopsRangeError ∉ (bd.prepareDiskCreate uuid).2) ∧
    ((extremeDev 10000).prepare "u").2 = [] ∧
    ((extremeDev 120000).prepare "u").2 = [] ∧
    ((extremeDev 9999).prepare "u").2 = [iopsRangeError] ∧
    ((extremeDev 120001).prepare "u").2 = [iopsRangeError] ∧
    ((stdDevIops 100000).prepare "u").2 = [iopsOnlyExtremeError] := by
  refine ⟨?_, ?_, by decide, by decide, by decide, by decide, by decide⟩
  · intro uuid bd hsv hiops herr
    rw [prepareDiskCreate_errs uuid bd hsv] at herr
    by_cases hvt : validVolumeType bd.volumeType = true
    · simp only [hvt, Bool.not_true, Bool.false_eq_true, if_false, List.append_eq_nil] at herr
      obtain ⟨⟨⟨⟨⟨h1, h2⟩, -⟩, -⟩, -⟩, -⟩ := herr
      have htype : bd.volumeType = "pd-extreme" := by
        by_contra hne
        simp [hiops, hne] at h1
      have hrange : ¬(bd.iops < 10000 ∨ bd.iops > 120000) := by
        intro hor
        rcases hor with h | h <;> simp [hiops, h] at h2
      refine ⟨htype, ?_, ?_⟩ <;> omega
    · simp only [Bool.not_eq_true] at hvt
      rw [hvt] at herr
      simp at herr
  · intro uuid bd hsv htype hlo hhi
    have hd1 : decide (bd.iops < 10000) = false := decide_eq_false (by omega)
    have hd2 : decide (bd.iops > 120000) = false := decide_eq_false (by omega)
    rw [prepareDiskCreate_errs uuid bd hsv]
    simp [htype, hd1, hd2, validVolumeType]
    constructor <;>
      exact ⟨fun _ => by decide, fun _ _ => ⟨by decide, by decide⟩⟩

/-- Witness for C5 at the concrete in-range pd-extreme device. -/
theorem C5_iops_bounds_witness :
    ((extremeDev 10000).volumeType = "pd-extreme" ∧
      (10000 : Int) ≤ (extremeDev 10000).iops ∧ (extremeDev 10000).iops ≤ 120000) ∧
    iopsOnlyExtremeError ∉ ((extremeDev 10000).prepareDiskCreate "u").2 ∧
    iopsRangeError ∉ ((extremeDev 10000).prepareDiskCreate "u").2 := by
  refine ⟨C5_iops_bounds.1 "u" (extremeDev 10000) (by decide) (by decide) (by decide), ?_, ?_⟩
  · exact (C5_iops_bounds.2.1 "u" (extremeDev 10000) (by decide) (by decide) (by decide) (by decide)).1
  · exact (C5_iops_bounds.2.1 "u" (extremeDev 10000) (by decide) (by decide) (by decide) (by decide)).2

/-! ## OS-Login SSH username derivation

The step StepImportOSLoginSSHKey.Run of the builder reads the login
profile returned by the key import and selects the Primary POSIX account
username; that part is translated from
builder/googlecompute/step_import_os_login_ssh_key.go. The derivation
policy getUsername is exercised by the test suite of the step but its
definition is not under src, so it is modelled from the spec below. -/

/-- PosixAccount: the projection of the OS-Login profile account used by
the step. -/
structure PosixAccount where
  primary : Bool
  username : String
deriving Repr, DecidableEq

/-- Primary-account selection of StepImportOSLoginSSHKey.Run: the username
of the first account marked Primary, or the empty string when none is. -/
def primaryUsername : List PosixAccount → String
  | [] => ""
  | a :: rest => if a.primary then a.username else primaryUsername rest

/-- Lower-casing of ASCII letters, as strings.ToLower acts on the ASCII
usernames involved. -/
def toLowerChar (c : Char) : Char :=
  if 'A' ≤ c && c ≤ 'Z' then Char.ofNat (c.toNat + 32) else c

/-- Alphanumeric test used by the external-username normalization. -/
def isAlnumChar (c : Char) : Bool := isLowerChar c || isDigitChar c

/-- Modelled from the spec: getUsername, the oslogin_ssh_username
derivation policy, whose definition is missing from src (only its test
suite is present). Unset or __auto__ uses the POSIX username verbatim;
__external__ lower-cases the POSIX username, replaces non-alphanumeric
characters (the replacement character is not fixed by the spec; an
underscore is used here), truncates it so that the ext_ prefix plus the
name total at most 32 characters, and prepends ext_; any other literal is
used directly, truncated to 32 characters. -/
def getUsername (apiUsername configUsername : String) : String :=
  if configUsername == "" || configUsername == "__auto__" then
    apiUsername
  else if configUsername == "__external__" then
    let normalized := (apiUsername.toList.map toLowerChar).map
      (fun c => if isAlnumChar c then c else '_')
    "ext_" ++ String.mk (normalized.take 28)
  else
    String.mk (configUsername.toList.take 32)

/-- Modelled from the spec: the tail of the import step, which on success
writes the derived username into the communicator configuration; with no
POSIX accounts available the step halts instead (None). -/
def stepImportSSHUsername (accounts : List PosixAccount) (configUsername : String) :
    Option String :=
  if accounts.isEmpty then none
  else some (getUsername (primaryUsername accounts) configUsername)

/-- C3: after a successful OS-Login key import the communicator SSH
username is the Primary POSIX username passed through the configured
derivation policy: verbatim for unset or __auto__; lower-cased, replaced,
truncated to 28 and prefixed with ext_ (total at most 32) for
__external__; any other literal used directly, truncated to 32. The
concrete cases are the vectors of the getUsername test suite. -/
theorem C3_oslogin_username_policy :
    (∀ (accounts : List PosixAccount) (cfgUser : String), accounts ≠ [] →
      stepImportSSHUsername accounts cfgUser =
        some (getUsername (primaryUsername accounts) cfgUser)) ∧
    (∀ api : String, getUsername api "" = api ∧ getUsername api "__auto__" = api) ∧
    (∀ api : String,
      getUsername api "__external__" =
        "ext_" ++ String.mk (((api.toList.map toLowerChar).map
          (fun c => if isAlnumChar c then c else '_')).take 28) ∧
      (getUsername api "__external__").length ≤ 32) ∧
    (∀ (api cfgUser : String), cfgUser ≠ "" → cfgUser ≠ "__auto__" → cfgUser ≠ "__external__" →
      getUsername api cfgUser = String.mk (cfgUser.toList.take 32) ∧
      (getUsername api cfgUser).length ≤ 32) ∧
    getUsername "apiuser" "" = "apiuser" ∧
    getUsername "apiuser" "__auto__" = "apiuser" ∧
    getUsername "userabc" "__external__" = "ext_userabc" ∧
    getUsername "averyveryverylongusernamethatexceedsthemax" "__external__" =
      "ext_averyveryverylongusernametha" ∧
    getUsername "ignored" "my_custom_user" = "my_custom_user" ∧
    getUsername "ignored" "averyveryveryveryverylongcustomusername" =
      "averyveryveryveryverylongcustomu" := by
  refine ⟨?_, ?_, ?_, ?_, by decide, by decide, by decide, by decide, by decide, by decide⟩
  · intro accounts cfgUser hne
    unfold stepImportSSHUsername
    rw [if_neg]
    simp [hne]
  · intro api
    constructor <;> rfl
  · intro api
    constructor
    · rfl
    · show (("ext_" : String) ++ _).length ≤ 32
      rw [String.length_append]
      have h28 : (String.mk (((api.toList.map toLowerChar).map
          (fun c => if isAlnumChar c then c else '_')).take 28)).length ≤ 28 := by
        show List.length _ ≤ 28
        simp
      have h4 : ("ext_" : String).length = 4 := rfl
      omega
  · intro api cfgUser h1 h2 h3
    have hc1 : (cfgUser == "") = false := by simp [h1]
    have hc2 : (cfgUser == "__auto__") = false := by simp [h2]
    have hc3 : (cfgUser == "__external__") = false := by simp [h3]
    unfold getUsername
    rw [hc1, hc2, hc3]
    refine ⟨rfl, ?_⟩
    show List.length _ ≤ 32
    simp

/-- Witness for C3 at a concrete profile with one Primary account. -/
theorem C3_oslogin_username_policy_witness :
    stepImportSSHUsername [{ primary := true, username := "apiuser" }] "" =
      some (getUsername (primaryUsername [{ primary := true, username := "apiuser" }]) "") ∧
    getUsername "ignored" "customuser" = String.mk (("customuser" : String).toList.take 32) := by
  refine ⟨C3_oslogin_username_policy.1 [{ primary := true, username := "apiuser" }] "" (by decide), ?_⟩
  exact (C3_oslogin_username_policy.2.2.2.1 "ignored" "customuser"
    (by decide) (by decide) (by decide)).1

/-! ## Polling helper waitForState

Translated from waitForState of the real driver (part_024). The function
receives a send-only error channel, a target status and a refresh
function; it runs the refresh function under the retry helper (constant
2-second delay, every error retried), the inner closure sends the refresh
error and stops retrying when the target status was reached together with
an error, and whatever the retry loop returned is sent on the channel once
the loop finishes. The embedding exposes the sequence of values sent on
the channel as a function of the successive refresh results; None means
the loop was still polling when the supplied trace ended. -/

/-- One observed result of the caller-supplied refresh function: the
status string together with an optional error. -/
abbrev RefreshResult := String × Option String

/-- Values sent on the error channel by waitForState, per refresh trace. -/
def waitForStateSends (target : String) : List RefreshResult → Option (List (Option String))
  | [] => none
  | (st, some e) :: rest =>
    if st == target then some [some e, none]
    else waitForStateSends target rest
  | (st, none) :: rest =>
    if st == target then some [none]
    else waitForStateSends target rest

/-- C2: evaluation of waitForState at the failing input. When the first
refresh reports the target status DONE together with an error, the inner
closure sends that error and stops the retry loop, and the tail of
waitForState then sends the nil result of the retry loop as well: two
values are delivered on the channel, where the claim requires that exactly
the one error is delivered with no further delivery. -/
theorem C2_waitForState_double_send :
    waitForStateSends "DONE" [("DONE", some "operation failed")] =
      some [some "operation failed", none] ∧
    (Option.map List.length
      (waitForStateSends "DONE" [("DONE", some "operation failed")])) = some 2 := by
  constructor <;> rfl

/-! ## Image-creation step (deprecation-aware variant)

Translated from StepCreateImage.Run and getDeprecationStatus of part_022.
RFC3339 parsing belongs to the external time package and is passed in as a
parse function returning an abstract instant; the current time is the now
argument. Driver interactions are recorded as a call trace; the driver
responses (including the state-timeout race, folded into the create-image
result) are supplied by a DriverBehavior record. -/

/-- Subset of the builder Config read by the image-creation step. -/
structure CreateImageConfig where
  skipCreateImage : Bool := false
  packerForce : Bool := false
  imageAlreadyExists : Bool := false
  projectId : String := ""
  imageProjectId : String := ""
  zone : String := ""
  imageSourceDisk : String := ""
  imageName : String := ""
  imageFamily : String := ""
  imageDescription : String := ""
  imageArchitecture : String := ""
  imageLabels : List (String × String) := []
  imageLicenses : List String := []
  imageGuestOsFeatures : List String := []
  imageStorageLocations : List String := []
  imageEncryptionKey : CustomerEncryptionKey := {}
  deprecateAt : String := ""
  obsoleteAt : String := ""
  deleteAt : String := ""
deriving Repr, DecidableEq

/-- The compute image-insert payload built by the step. -/
structure ComputeImagePayload where
  architecture : String
  description : String
  name : String
  family : String
  labels : List (String × String)
  licenses : List String
  guestOsFeatures : List String
  imageEncryptionKey : CustomerEncryptionKey
  sourceDisk : String
  sourceType : String
  storageLocations : List String
deriving Repr, DecidableEq

/-- The image payload construction of StepCreateImage.Run. -/
def imagePayload (cfg : CreateImageConfig) : ComputeImagePayload :=
  { architecture := cfg.imageArchitecture
    description := cfg.imageDescription
    name := cfg.imageName
    family := cfg.imageFamily
    labels := cfg.imageLabels
    licenses := cfg.imageLicenses
    guestOsFeatures := cfg.imageGuestOsFeatures
    imageEncryptionKey := cfg.imageEncryptionKey
    sourceDisk := "/compute/v1/projects/" ++ cfg.projectId ++ "/zones/" ++ cfg.zone ++
      "/disks/" ++ cfg.imageSourceDisk
    sourceType := "RAW"
    storageLocations := cfg.imageStorageLocations }

/-- The compute deprecation status sent by the step. -/
structure DeprecationStatus where
  state : String := ""
  deprecated : String := ""
  obsolete : String := ""
  deleted : String := ""
deriving Repr, DecidableEq

/-- Validation errors of getDeprecationStatus, one per failing check. -/
inductive DeprErr
  | deprecateAtFormat
  | deprecateAtPast
  | obsoleteAtFormat
  | obsoleteAtPast
  | deleteAtFormat
  | deleteAtPast
deriving Repr, DecidableEq

/-- Outcome of checking one configured timestamp. -/
inductive TsResult
  | empty
  | ok
  | badFormat
  | past
deriving Repr, DecidableEq

/-- Per-timestamp check of getDeprecationStatus: an empty timestamp is
skipped, a non-parseable one is a format error, a parsed instant before
now is a past error, anything else passes. -/
def tsCheck (s : String) (parse : String → Option Int) (now : Int) : TsResult :=
  if s == "" then TsResult.empty
  else
    match parse s with
    | none => TsResult.badFormat
    | some t => if t < now then TsResult.past else TsResult.ok

/-- Error contribution of one timestamp check. -/
def tsErrs (r : TsResult) (fmtE pastE : DeprErr) : List DeprErr :=
  match r with
  | TsResult.badFormat => [fmtE]
  | TsResult.past => [pastE]
  | _ => []

/-- getDeprecationStatus of part_022: with no timestamp configured the
empty status and no errors; otherwise state DEPRECATED, each field set to
its configured literal exactly when its check passes, and the errors of
all three checks accumulated in order. -/
def getDeprecationStatus (cfg : CreateImageConfig) (parse : String → Option Int) (now : Int) :
    DeprecationStatus × List DeprErr :=
  if cfg.deprecateAt == "" && cfg.obsoleteAt == "" && cfg.deleteAt == "" then
    ({}, [])
  else
    let r1 := tsCheck cfg.deprecateAt parse now
    let r2 := tsCheck cfg.obsoleteAt parse now
    let r3 := tsCheck cfg.deleteAt parse now
    ({ state := "DEPRECATED"
       deprecated := if r1 == TsResult.ok then cfg.deprecateAt else ""
       obsolete := if r2 == TsResult.ok then cfg.obsoleteAt else ""
       deleted := if r3 == TsResult.ok then cfg.deleteAt else "" },
     tsErrs r1 DeprErr.deprecateAtFormat DeprErr.deprecateAtPast ++
       tsErrs r2 DeprErr.obsoleteAtFormat DeprErr.obsoleteAtPast ++
       tsErrs r3 DeprErr.deleteAtFormat DeprErr.deleteAtPast)

/-- The image value the driver returns once creation completes. -/
structure ImageResult where
  name : String := ""
  projectId : String := ""
  selfLink : String := ""
  sizeGb : Int := 0
deriving Repr, DecidableEq

/-- Driver requests issued by the image-creation step, in order. -/
inductive DriverCall
  | deleteImage (project name : String)
  | createImage (project : String) (payload : ComputeImagePayload)
  | setDeprecation (project name : String) (status : DeprecationStatus)
deriving Repr, DecidableEq

/-- Pre-programmed driver responses for one run of the step. -/
structure DriverBehavior where
  deleteImageErr : Option String := none
  createImageResult : Except String ImageResult := Except.ok {}
  setDeprecationErr : Option String := none

/-- Step result of the multistep protocol. -/
inductive StepAction
  | cont
  | halt
deriving Repr, DecidableEq

/-- Errors the step records into build state. -/
inductive StepErr
  | deletingImage (e : String)
  | waitingForImage (e : String)
  | gettingDeprecationStatus (es : List DeprErr)
  | settingDeprecationStatus (e : String)
deriving Repr, DecidableEq

/-- Observable outcome of one run of the step: the action it returns, the
driver calls it issued, and the image and error values it recorded into
build state. -/
structure StepOutcome where
  action : StepAction
  calls : List DriverCall
  imagePut : Option ImageResult
  errorPut : Option StepErr
deriving Repr, DecidableEq

/-- Tail of StepCreateImage.Run after the force-deletion branch: issue the
image insert, await it, record the image, validate the deprecation
timestamps and issue the deprecation-status update. -/
def stepCreateImageAfterDelete (cfg : CreateImageConfig) (driver : DriverBehavior)
    (parse : String → Option Int) (now : Int) (calls0 : List DriverCall) : StepOutcome :=
  let calls := calls0 ++ [DriverCall.createImage cfg.imageProjectId (imagePayload cfg)]
  match driver.createImageResult with
  | Except.error e =>
    { action := StepAction.halt, calls := calls, imagePut := none,
      errorPut := some (StepErr.waitingForImage e) }
  | Except.ok img =>
    let dep := getDeprecationStatus cfg parse now
    if dep.2 ≠ [] then
      { action := StepAction.halt, calls := calls, imagePut := some img,
        errorPut := some (StepErr.gettingDeprecationStatus dep.2) }
    else
      let calls := calls ++ [DriverCall.setDeprecation cfg.imageProjectId cfg.imageName dep.1]
      match driver.setDeprecationErr with
      | some e =>
        { action := StepAction.halt, calls := calls, imagePut := some img,
          errorPut := some (StepErr.settingDeprecationStatus e) }
      | none =>
        { action := StepAction.cont, calls := calls, imagePut := some img, errorPut := none }

/-- Run of the deprecation-aware StepCreateImage (part_022). -/
def stepCreateImageRun (cfg : CreateImageConfig) (driver : DriverBehavior)
    (parse : String → Option Int) (now : Int) : StepOutcome :=
  if cfg.skipCreateImage then
    { action := StepAction.cont, calls := [], imagePut := none, errorPut := none }
  else if cfg.packerForce && cfg.imageAlreadyExists then
    match driver.deleteImageErr with
    | some e =>
      { action := StepAction.halt
        calls := [DriverCall.deleteImage cfg.imageProjectId cfg.imageName]
        imagePut := none
        errorPut := some (StepErr.deletingImage e) }
    | none =>
      stepCreateImageAfterDelete cfg driver parse now
        [DriverCall.deleteImage cfg.imageProjectId cfg.imageName]
  else
    stepCreateImageAfterDelete cfg driver parse now []

/-- Recognizer for image-insert requests in a call trace. -/
def isCreateImageCall : DriverCall → Bool
  | DriverCall.createImage _ _ => true
  | _ => false

/-- Recognizer for deprecation-status requests in a call trace. -/
def isSetDeprecationCall : DriverCall → Bool
  | DriverCall.setDeprecation _ _ _ => true
  | _ => false

/-- A configured timestamp that the step must reject: non-empty and either
not parseable or parsed to an instant before now. -/
def timestampInvalid (parse : String → Option Int) (now : Int) (s : String) : Prop :=
  s ≠ "" ∧ (parse s = none ∨ ∃ t, parse s = some t ∧ t < now)

/-- A timestamp the step accepts: unconfigured, or parseable to an instant
not before now. -/
def timestampValidOrEmpty (parse : String → Option Int) (now : Int) (s : String) : Prop :=
  s = "" ∨ ∃ t, parse s = some t ∧ ¬t < now

/-- Error contribution of a timestamp check is empty exactly for the empty
and passing outcomes. -/
theorem tsErrs_eq_nil (r : TsResult) (f p : DeprErr) :
    tsErrs r f p = [] ↔ (r = TsResult.empty ∨ r = TsResult.ok) := by
  cases r <;> simp [tsErrs]

/-- An invalid timestamp fails its check. -/
theorem tsCheck_of_invalid (parse : String → Option Int) (now : Int) (s : String)
    (h : timestampInvalid parse now s) :
    tsCheck s parse now = TsResult.badFormat ∨ tsCheck s parse now = TsResult.past := by
  obtain ⟨hne, hcase⟩ := h
  unfold tsCheck
  rw [if_neg (by simp [hne])]
  rcases hcase with h | ⟨t, ht, hlt⟩
  · rw [h]
    left
    rfl
  · rw [ht]
    right
    simp [hlt]

/-- A valid-or-empty timestamp contributes no error and its status field
carries the configured literal. -/
theorem tsCheck_of_validOrEmpty (parse : String → Option Int) (now : Int) (s : String)
    (f p : DeprErr) (h : timestampValidOrEmpty parse now s) :
    tsErrs (tsCheck s parse now) f p = [] ∧
    (if tsCheck s parse now == TsResult.ok then s else "") = s := by
  by_cases hs : s = ""
  · subst hs
    have hr : tsCheck "" parse now = TsResult.empty := by simp [tsCheck]
    simp [hr, tsErrs]
  · rcases h with h | ⟨t, ht, hge⟩
    · exact absurd h hs
    · have hr : tsCheck s parse now = TsResult.ok := by
        unfold tsCheck
        rw [if_neg (by simp [hs]), ht]
        simp [hge]
      simp [hr, tsErrs]

/-- With an invalid configured timestamp, getDeprecationStatus reports at
least one validation error. -/
theorem getDeprecationStatus_invalid (cfg : CreateImageConfig)
    (parse : String → Option Int) (now : Int)
    (h : timestampInvalid parse now cfg.deprecateAt ∨
      timestampInvalid parse now cfg.obsoleteAt ∨ timestampInvalid parse now cfg.deleteAt) :
    (getDeprecationStatus cfg parse now).2 ≠ [] := by
  have hne : ¬((cfg.deprecateAt == "" && cfg.obsoleteAt == "" && cfg.deleteAt == "") = true) := by
    rcases h with ⟨hne, -⟩ | ⟨hne, -⟩ | ⟨hne, -⟩ <;> simp [hne]
  unfold getDeprecationStatus
  rw [if_neg hne]
  simp only [ne_eq, List.append_eq_nil]
  intro hcontra
  obtain ⟨⟨h1, h2⟩, h3⟩ := hcontra
  rcases h with hi | hi | hi
  · rcases tsCheck_of_invalid _ _ _ hi with hr | hr <;> simp [hr, tsErrs] at h1
  · rcases tsCheck_of_invalid _ _ _ hi with hr | hr <;> simp [hr, tsErrs] at h2
  · rcases tsCheck_of_invalid _ _ _ hi with hr | hr <;> simp [hr, tsErrs] at h3

/-- With every configured timestamp valid and at least one configured,
getDeprecationStatus reports no error and the status carries state
DEPRECATED with the configured literals. -/
theorem getDeprecationStatus_valid (cfg : CreateImageConfig)
    (parse : String → Option Int) (now : Int)
    (hconf : cfg.deprecateAt ≠ "" ∨ cfg.obsoleteAt ≠ "" ∨ cfg.deleteAt ≠ "")
    (h1 : timestampValidOrEmpty parse now cfg.deprecateAt)
    (h2 : timestampValidOrEmpty parse now cfg.obsoleteAt)
    (h3 : timestampValidOrEmpty parse now cfg.deleteAt) :
    getDeprecationStatus cfg parse now =
      ({ state := "DEPRECATED", deprecated := cfg.deprecateAt,
         obsolete := cfg.obsoleteAt, deleted := cfg.deleteAt }, []) := by
  have hne : ¬((cfg.deprecateAt == "" && cfg.obsoleteAt == "" && cfg.deleteAt == "") = true) := by
    rcases hconf with hne | hne | hne <;> simp [hne]
  unfold getDeprecationStatus
  rw [if_neg hne]
  obtain ⟨e1, f1⟩ := tsCheck_of_validOrEmpty parse now cfg.deprecateAt
    DeprErr.deprecateAtFormat DeprErr.deprecateAtPast h1
  obtain ⟨e2, f2⟩ := tsCheck_of_validOrEmpty parse now cfg.obsoleteAt
    DeprErr.obsoleteAtFormat DeprErr.obsoleteAtPast h2
  obtain ⟨e3, f3⟩ := tsCheck_of_validOrEmpty parse now cfg.deleteAt
    DeprErr.deleteAtFormat DeprErr.deleteAtPast h3
  simp only [f1, f2, f3, e1, e2, e3, List.append_nil, List.nil_append]

/-- With skip_create_image unset and the force-deletion not failing, the
step reduces to its post-deletion tail. -/
theorem stepCreateImageRun_eq_afterDelete (cfg : CreateImageConfig) (driver : DriverBehavior)
    (parse : String → Option Int) (now : Int)
    (hskip : cfg.skipCreateImage = false) (hdel : driver.deleteImageErr = none) :
    stepCreateImageRun cfg driver parse now =
      stepCreateImageAfterDelete cfg driver parse now
        (if cfg.packerForce && cfg.imageAlreadyExists then
          [DriverCall.deleteImage cfg.imageProjectId cfg.imageName] else []) := by
  unfold stepCreateImageRun
  rw [if_neg (by simp [hskip])]
  by_cases hf : (cfg.packerForce && cfg.imageAlreadyExists) = true
  · rw [if_pos hf, hdel, if_pos hf]
  · rw [if_neg hf, if_neg hf]

/-- C1 (amended): whenever any of the three deprecation timestamps is
configured and is either not parseable or earlier than the current time,
the step halts with the validation error recorded after the image-insert
request was already issued but before any deprecation-status request is
issued; when all configured timestamps are valid and creation succeeds,
the deprecation status issued after creation has state DEPRECATED and its
Deprecated, Obsolete and Deleted fields set to the configured literal
strings. -/
theorem C1_deprecation_validation (cfg : CreateImageConfig) (driver : DriverBehavior)
    (parse : String → Option Int) (now : Int)
    (hskip : cfg.skipCreateImage = false) (hdel : driver.deleteImageErr = none) :
    ((timestampInvalid parse now cfg.deprecateAt ∨ timestampInvalid parse now cfg.obsoleteAt ∨
        timestampInvalid parse now cfg.deleteAt) →
      (stepCreateImageRun cfg driver parse now).action = StepAction.halt ∧
      (∀ c ∈ (stepCreateImageRun cfg driver parse now).calls, isSetDeprecationCall c = false) ∧
      (stepCreateImageRun cfg driver parse now).calls.any isCreateImageCall = true) ∧
    (∀ img : ImageResult, (cfg.deprecateAt ≠ "" ∨ cfg.obsoleteAt ≠ "" ∨ cfg.deleteAt ≠ "") →
      timestampValidOrEmpty parse now cfg.deprecateAt →
      timestampValidOrEmpty parse now cfg.obsoleteAt →
      timestampValidOrEmpty parse now cfg.deleteAt →
      driver.createImageResult = Except.ok img →
      DriverCall.setDeprecation cfg.imageProjectId cfg.imageName
          { state := "DEPRECATED", deprecated := cfg.deprecateAt,
            obsolete := cfg.obsoleteAt, deleted := cfg.deleteAt } ∈
        (stepCreateImageRun cfg driver parse now).calls ∧
      (stepCreateImageRun cfg driver parse now).imagePut = some img) := by
  rw [stepCreateImageRun_eq_afterDelete cfg driver parse now hskip hdel]
  constructor
  · intro hinv
    have hdep := getDeprecationStatus_invalid cfg parse now hinv
    unfold stepCreateImageAfterDelete
    cases hc : driver.createImageResult with
    | error e =>
      dsimp only
      refine ⟨rfl, ?_, ?_⟩ <;> split_ifs <;>
        simp [isSetDeprecationCall, isCreateImageCall]
    | ok img =>
      dsimp only
      rw [if_pos hdep]
      refine ⟨rfl, ?_, ?_⟩ <;> split_ifs <;>
        simp [isSetDeprecationCall, isCreateImageCall]
  · intro img hconf h1 h2 h3 hci
    have hdep := getDeprecationStatus_valid cfg parse now hconf h1 h2 h3
    unfold stepCreateImageAfterDelete
    rw [hci]
    dsimp only
    rw [hdep]
    cases driver.setDeprecationErr <;> simp

/-- Configuration with a malformed deprecation timestamp, used by the C1
counterexample. -/
def c1Cfg : CreateImageConfig := { deprecateAt := "not-a-timestamp" }

/-- Driver behavior whose image creation succeeds, used by C1. -/
def c1Driver : DriverBehavior := { createImageResult := Except.ok { name := "image-a" } }

/-- Parse function under which no string is a valid RFC3339 timestamp. -/
def c1ParseNone : String → Option Int := fun _ => none

/-- C1 counterexample: with deprecate_at set to a non-parseable string the
step does fail with the validation error, but only after the image-insert
request was issued, contradicting the claim that the failure occurs before
any image mutation. -/
theorem C1_deprecation_counterexample :
    (stepCreateImageRun c1Cfg c1Driver c1ParseNone 0).action = StepAction.halt ∧
    (stepCreateImageRun c1Cfg c1Driver c1ParseNone 0).errorPut =
      some (StepErr.gettingDeprecationStatus [DeprErr.deprecateAtFormat]) ∧
    (stepCreateImageRun c1Cfg c1Driver c1ParseNone 0).calls.any isCreateImageCall = true := by
  decide

/-- Configuration with a valid future deprecate_at, used by the C1
witness. -/
def c1ValidCfg : CreateImageConfig := { deprecateAt := "2125-06-01T00:00:00Z" }

/-- Parse function mapping the witness timestamp to a future instant. -/
def c1ParseFixed : String → Option Int :=
  fun s => if s == "2125-06-01T00:00:00Z" then some 4904668800 else none

/-- Witness for C1 at concrete configurations: the valid-timestamp branch
issues the DEPRECATED status, and the invalid branch halts. -/
theorem C1_deprecation_validation_witness :
    (DriverCall.setDeprecation "" ""
        { state := "DEPRECATED", deprecated := "2125-06-01T00:00:00Z",
          obsolete := "", deleted := "" } ∈
      (stepCreateImageRun c1ValidCfg c1Driver c1ParseFixed 0).calls ∧
      (stepCreateImageRun c1ValidCfg c1Driver c1ParseFixed 0).imagePut =
        some { name := "image-a" }) ∧
    (stepCreateImageRun c1Cfg c1Driver c1ParseNone 0).action = StepAction.halt := by
  constructor
  · exact (C1_deprecation_validation c1ValidCfg c1Driver c1ParseFixed 0 rfl rfl).2
      { name := "image-a" } (Or.inl (by decide))
      (Or.inr ⟨4904668800, by decide, by decide⟩) (Or.inl rfl) (Or.inl rfl) rfl
  · exact ((C1_deprecation_validation c1Cfg c1Driver c1ParseNone 0 rfl rfl).1
      (Or.inl ⟨by decide, Or.inl rfl⟩)).1

/-- Builder.Run tail (part_019): the artifact/error pair Run returns as a
function of the final build state, where the artifact is represented by
the image it wraps. An error in state is returned with no artifact; no
error and no image returns neither. -/
def builderRunOutcome (errorInState : Option StepErr) (imageInState : Option ImageResult) :
    Option ImageResult × Option StepErr :=
  match errorInState with
  | some e => (none, some e)
  | none =>
    match imageInState with
    | none => (none, none)
    | some img => (some img, none)

/-- C10: with skip_create_image set the image-creation step issues no
driver call, records neither an image nor an error into state, and
continues; Builder.Run over the resulting final state (no error recorded
by any step, and the image key written by no step but this one) returns
neither an artifact nor an error. -/
theorem C10_skip_create_image (cfg : CreateImageConfig) (driver : DriverBehavior)
    (parse : String → Option Int) (now : Int) (hskip : cfg.skipCreateImage = true) :
    (stepCreateImageRun cfg driver parse now).action = StepAction.cont ∧
    (stepCreateImageRun cfg driver parse now).calls = [] ∧
    (stepCreateImageRun cfg driver parse now).imagePut = none ∧
    (stepCreateImageRun cfg driver parse now).errorPut = none ∧
    builderRunOutcome (stepCreateImageRun cfg driver parse now).errorPut
      (stepCreateImageRun cfg driver parse now).imagePut = (none, none) := by
  unfold stepCreateImageRun
  simp [hskip, builderRunOutcome]

/-- Witness for C10 at a concrete skipping configuration. -/
theorem C10_skip_create_image_witness :
    builderRunOutcome
      (stepCreateImageRun { skipCreateImage := true } {} c1ParseNone 0).errorPut
      (stepCreateImageRun { skipCreateImage := true } {} c1ParseNone 0).imagePut =
      (none, none) :=
  (C10_skip_create_image { skipCreateImage := true } {} c1ParseNone 0 rfl).2.2.2.2

/-! ## Artifact and its State operation

Translated from builder/googlecompute/artifact.go. Free-form state values
of the Go interface type are modelled by GoVal; the registry branch of
State performs an unguarded string type assertion on the SourceImageName
entry of the generated_data map, modelled as the None outcome. The source
contains the registry branch twice under the identical guard; the second
occurrence is unreachable and folded into the first. -/

/-- Dynamic Go values stored in the artifact state-data map. -/
inductive GoVal
  | str (s : String)
  | num (n : Int)
  | vmap (m : List (String × GoVal))
  | vnil

/-- Lookup in a string-keyed Go map modelled as an association list. -/
def lookupGo : List (String × GoVal) → String → Option GoVal
  | [], _ => none
  | (k, v) :: rest, key => if k == key then some v else lookupGo rest key

/-- The common.Image wrapped by the artifact. -/
structure CommonImage where
  name : String := ""
  projectId : String := ""
  selfLink : String := ""
  sizeGb : Int := 0
  licenses : List String := []
  labels : List (String × String) := []

/-- Subset of the builder Config read by the artifact. -/
structure ArtifactConfig where
  zone : String := ""
  machineType : String := ""
  sourceImage : String := ""
  sourceImageFamily : String := ""
  sourceImageProjectId : List String := []
  projectId : String := ""
  imageProjectId : String := ""

/-- The builder Artifact: the image, the owning config and the free-form
state-data map. -/
structure Artifact where
  image : CommonImage
  config : ArtifactConfig
  stateData : List (String × GoVal)

/-- The registry image record built by the State registry branch. -/
structure RegistryImage where
  imageID : String
  providerName : String
  providerRegion : String
  sourceImageID : String := ""
  labels : List (String × String) := []

/-- Assignment into a string map modelled as an association list. -/
def mapPut : List (String × String) → String → String → List (String × String)
  | [], k, v => [(k, v)]
  | (k0, v0) :: rest, k, v =>
    if k0 == k then (k, v) :: rest else (k0, v0) :: mapPut rest k v

/-- Map read with a default, as a Go map index returns the zero value for
a missing key. -/
def mapGetD (m : List (String × String)) (k d : String) : String :=
  match m with
  | [] => d
  | (k0, v0) :: rest => if k0 == k then v0 else mapGetD rest k d

/-- strings.Join with a comma separator. -/
def joinComma : List String → String
  | [] => ""
  | [x] => x
  | x :: rest => x ++ "," ++ joinComma rest

/-- The registry-metadata sentinel key of the host SDK. The literal is
external to this repository; only its identity matters here. -/
def artifactStateURI : String := "par.artifact.registry.image"

/-- Values the State operation can return. -/
inductive StateVal
  | reg (r : RegistryImage)
  | s (v : String)
  | i (v : Int)
  | go (v : GoVal)
  | vnil

/-- State of artifact.go. None models the runtime fault of the unguarded
string type assertion on the SourceImageName entry. -/
def artifactState (a : Artifact) (name : String) : Option StateVal :=
  if name == artifactStateURI then
    let labels0 := [("self_link", a.image.selfLink), ("project_id", a.image.projectId),
      ("disk_size_gb", toString a.image.sizeGb), ("machine_type", a.config.machineType),
      ("licenses", joinComma a.image.licenses)]
    let labels1 :=
      if a.config.sourceImage != "" then
        mapPut labels0 "source_image" a.config.sourceImage
      else labels0
    let labels2 :=
      if a.config.sourceImageFamily != "" then
        mapPut labels1 "source_image_family" a.config.sourceImageFamily
      else labels1
    let srcID : Option String :=
      match lookupGo a.stateData "generated_data" with
      | some (GoVal.vmap m) =>
        match lookupGo m "SourceImageName" with
        | some (GoVal.str s) => some s
        | _ => none
      | _ => some ""
    match srcID with
    | none => none
    | some sid =>
      let labels3 :=
        if a.config.sourceImageProjectId.length > 0 then
          mapPut labels2 "source_image_project_ids" (joinComma a.config.sourceImageProjectId)
        else labels2
      let labels4 := a.image.labels.foldl
        (fun acc kv => mapPut acc "tags" (mapGetD acc "tags" "" ++ kv.1 ++ ":" ++ kv.2)) labels3
      some (StateVal.reg
        { imageID := a.image.name, providerName := "gce", providerRegion := a.config.zone,
          sourceImageID := sid, labels := labels4 })
  else if name == "ImageName" then some (StateVal.s a.image.name)
  else if name == "ImageSizeGb" then some (StateVal.i a.image.sizeGb)
  else if name == "ProjectId" then some (StateVal.s a.config.projectId)
  else if name == "BuildZone" then some (StateVal.s a.config.zone)
  else
    match lookupGo a.stateData name with
    | some v => some (StateVal.go v)
    | none => some StateVal.vnil

/-- C9: for an artifact whose state data carries a generated_data entry
that is a string-keyed map, the State operation with the registry-metadata
sentinel key produces a value exactly when that map holds a string value
under SourceImageName; otherwise the unguarded type assertion faults. -/
theorem C9_registry_state_fault (a : Artifact) (m : List (String × GoVal))
    (hgen : lookupGo a.stateData "generated_data" = some (GoVal.vmap m)) :
    (artifactState a artifactStateURI).isSome ↔
      ∃ s, lookupGo m "SourceImageName" = some (GoVal.str s) := by
  unfold artifactState
  rw [if_pos (by simp)]
  dsimp only
  rw [hgen]
  cases hsrc : lookupGo m "SourceImageName" with
  | none => simp [hsrc]
  | some v =>
    cases v <;> simp [hsrc]

/-- Artifact whose generated data carries a string SourceImageName. -/
def c9GoodArtifact : Artifact :=
  { image := {}, config := {},
    stateData := [("generated_data", GoVal.vmap [("SourceImageName", GoVal.str "src-img")])] }

/-- Artifact whose generated data map lacks SourceImageName. -/
def c9BadArtifact : Artifact :=
  { image := {}, config := {}, stateData := [("generated_data", GoVal.vmap [])] }

/-- Witness for C9: the well-formed artifact yields a registry record, and
the artifact without a SourceImageName string faults. -/
theorem C9_registry_state_fault_witness :
    (artifactState c9GoodArtifact artifactStateURI).isSome ∧
    (artifactState c9BadArtifact artifactStateURI).isSome = false := by
  constructor
  · exact (C9_registry_state_fault c9GoodArtifact
      [("SourceImageName", GoVal.str "src-img")] rfl).mpr ⟨"src-img", rfl⟩
  · have h := C9_registry_state_fault c9BadArtifact [] rfl
    rcases hv : artifactState c9BadArtifact artifactStateURI with _ | v
    · rfl
    · exfalso
      obtain ⟨s, hs⟩ := h.mp (by rw [hv]; rfl)
      simp [lookupGo] at hs

/-! ## Image data source

Translated from the image data source Execute (part_002), from the point
the filtered image list was returned by the provider. The provider image
carries a numeric identifier, a creation timestamp string and a labels map
that may be nil (modelled as an Option). Sorting uses the comparison of
the Go code, descending by string-greater on the creation timestamp. -/

/-- Provider image entry as consumed by the data source. -/
structure GCImage where
  id : Nat
  name : String
  creationTimestamp : String
  labels : Option (List (String × String))
deriving DecidableEq

/-- Configuration of the image data source. -/
structure ImageDSConfig where
  projectID : String := ""
  filters : String := ""
  mostRecent : Bool := false
deriving DecidableEq

/-- Output of the image data source. -/
structure ImageDSOutput where
  id : String
  name : String
  creationDate : String
  labels : List (String × String)
deriving DecidableEq

/-- The lexicographic comparison of the timestamps, on their character
sequences as Go compares the ASCII timestamp strings. -/
abbrev tsLe (x y : GCImage) : Prop :=
  x.creationTimestamp.toList ≤ y.creationTimestamp.toList

/-- Insertion into a list sorted descending by creation timestamp. -/
def insertDescByTs (x : GCImage) : List GCImage → List GCImage
  | [] => [x]
  | y :: ys =>
    if tsLe y x then x :: y :: ys
    else y :: insertDescByTs x ys

/-- The descending sort applied by the data source before selecting the
first entry. -/
def sortDescByTs : List GCImage → List GCImage
  | [] => []
  | x :: xs => insertDescByTs x (sortDescByTs xs)

/-- Error for an empty result list. -/
def noImagesError (filters : String) : String :=
  "no images found with filter expression: \"" ++ filters ++ "\""

/-- Error for several results without most_recent. -/
def moreThanOneResultError : String :=
  "Your query returned more than one result. Please try a more specific search, or set most_recent = true"

/-- Execute of the image data source over the returned item list. -/
def imageDSExecute (cfg : ImageDSConfig) (items : List GCImage) : Except String ImageDSOutput :=
  if items.length == 0 then
    Except.error (noImagesError cfg.filters)
  else if decide (items.length > 1) && !cfg.mostRecent then
    Except.error moreThanOneResultError
  else
    match sortDescByTs items with
    | [] => Except.error "unreachable: sorted list of nonempty input is nonempty"
    | matched :: _ =>
      Except.ok
        { id := toString matched.id
          name := matched.name
          creationDate := matched.creationTimestamp
          labels :=
            match matched.labels with
            | none => []
            | some l => l }

/-- Membership is preserved by the descending insertion. -/
theorem mem_insertDescByTs (a x : GCImage) (l : List GCImage) :
    a ∈ insertDescByTs x l ↔ a = x ∨ a ∈ l := by
  induction l with
  | nil => simp [insertDescByTs]
  | cons y ys ih =>
    unfold insertDescByTs
    split_ifs
    · simp
    · simp [ih]
      tauto

/-- Membership is preserved by the descending sort. -/
theorem mem_sortDescByTs (a : GCImage) (l : List GCImage) :
    a ∈ sortDescByTs l ↔ a ∈ l := by
  induction l with
  | nil => simp [sortDescByTs]
  | cons x xs ih =>
    unfold sortDescByTs
    rw [mem_insertDescByTs]
    simp [ih]

/-- The sort of a nonempty list is nonempty. -/
theorem sortDescByTs_eq_nil_iff (l : List GCImage) : sortDescByTs l = [] ↔ l = [] := by
  induction l with
  | nil => simp [sortDescByTs]
  | cons x xs ih =>
    unfold sortDescByTs
    constructor
    · intro h
      exfalso
      have : x ∈ insertDescByTs x (sortDescByTs xs) := by
        rw [mem_insertDescByTs]
        left
        rfl
      rw [h] at this
      simp at this
    · intro h
      simp at h

/-- The head of the descending sort dominates every element. -/
theorem head_sortDescByTs_max (l : List GCImage) (m : GCImage) (rest : List GCImage)
    (h : sortDescByTs l = m :: rest) :
    ∀ y ∈ l, tsLe y m := by
  induction l generalizing m rest with
  | nil => simp [sortDescByTs] at h
  | cons x xs ih =>
    unfold sortDescByTs at h
    cases hs : sortDescByTs xs with
    | nil =>
      have hxs : xs = [] := (sortDescByTs_eq_nil_iff xs).mp hs
      rw [hs] at h
      unfold insertDescByTs at h
      injection h with h1 h2
      subst h1
      subst hxs
      intro y hy
      simp at hy
      subst hy
      exact le_refl _
    | cons z zs =>
      rw [hs] at h
      have ihz := ih z zs hs
      unfold insertDescByTs at h
      by_cases hc : tsLe z x
      · rw [if_pos hc] at h
        injection h with h1 h2
        subst h1
        intro y hy
        rcases List.mem_cons.mp hy with hy | hy
        · subst hy
          exact le_refl _
        · exact le_trans (ihz y hy) hc
      · rw [if_neg hc] at h
        injection h with h1 h2
        subst h1
        intro y hy
        rcases List.mem_cons.mp hy with hy | hy
        · subst hy
          exact le_of_not_le hc
        · exact ihz y hy

/-- C6: the empty result list is an error; several results without
most_recent is an error; any successful lookup returns an element of the
result list whose creation timestamp dominates every entry (the first
after the descending sort), with its labels field the empty map when the
image carries none. -/
theorem C6_image_search_cardinality (cfg : ImageDSConfig) (items : List GCImage) :
    (items = [] → imageDSExecute cfg items = Except.error (noImagesError cfg.filters)) ∧
    (1 < items.length → cfg.mostRecent = false →
      imageDSExecute cfg items = Except.error moreThanOneResultError) ∧
    (∀ out, imageDSExecute cfg items = Except.ok out →
      ∃ img, img ∈ items ∧ out.id = toString img.id ∧ out.name = img.name ∧
        out.creationDate = img.creationTimestamp ∧
        (∀ y ∈ items, tsLe y img) ∧
        (img.labels = none → out.labels = []) ∧
        (∀ l, img.labels = some l → out.labels = l)) := by
  refine ⟨?_, ?_, ?_⟩
  · intro h
    subst h
    rfl
  · intro hlen hmr
    have h0 : (items.length == 0) = false := by
      rw [beq_eq_false_iff_ne]
      omega
    have h1 : (decide (items.length > 1) && !cfg.mostRecent) = true := by
      rw [hmr]
      simp only [Bool.not_false, Bool.and_true, decide_eq_true_eq]
      omega
    unfold imageDSExecute
    rw [h0, h1]
    simp
  · intro out hout
    unfold imageDSExecute at hout
    split_ifs at hout
    cases hsort : sortDescByTs items with
    | nil => rw [hsort] at hout; exact absurd hout (by simp)
    | cons matched rest =>
      rw [hsort] at hout
      refine ⟨matched, ?_, ?_⟩
      · rw [← mem_sortDescByTs, hsort]
        simp
      · injection hout with hout
        subst hout
        refine ⟨rfl, rfl, rfl, head_sortDescByTs_max items matched rest hsort, ?_, ?_⟩
        · intro hl
          simp [hl]
        · intro l hl
          simp [hl]

/-- Images used by the C6 witness. -/
def c6ImgOld : GCImage :=
  { id := 11, name := "older", creationTimestamp := "2023-01-01T00:00:00Z", labels := none }

/-- Second image used by the C6 witness, with the greater timestamp. -/
def c6ImgNew : GCImage :=
  { id := 12, name := "newer", creationTimestamp := "2024-06-01T00:00:00Z",
    labels := some [("env", "prod")] }

/-- Output selected by the data source in the C6 witness scenario. -/
def c6Out : ImageDSOutput :=
  { id := "12", name := "newer", creationDate := "2024-06-01T00:00:00Z",
    labels := [("env", "prod")] }

/-- Witness for C6 at a concrete two-image result with most_recent. -/
theorem C6_image_search_cardinality_witness :
    imageDSExecute { mostRecent := true } [c6ImgOld, c6ImgNew] = Except.ok c6Out ∧
    (∃ img, img ∈ [c6ImgOld, c6ImgNew] ∧ c6Out.id = toString img.id ∧
      c6Out.name = img.name ∧ c6Out.creationDate = img.creationTimestamp ∧
      (∀ y ∈ [c6ImgOld, c6ImgNew], tsLe y img) ∧
      (img.labels = none → c6Out.labels = []) ∧
      (∀ l, img.labels = some l → c6Out.labels = l)) ∧
    imageDSExecute {} [] = Except.error (noImagesError "") ∧
    imageDSExecute {} [c6ImgOld, c6ImgNew] = Except.error moreThanOneResultError := by
  refine ⟨by rfl, ?_, ?_, ?_⟩
  · exact (C6_image_search_cardinality { mostRecent := true } [c6ImgOld, c6ImgNew]).2.2
      c6Out (by rfl)
  · exact (C6_image_search_cardinality {} []).1 rfl
  · exact (C6_image_search_cardinality {} [c6ImgOld, c6ImgNew]).2.1 (by decide) rfl

/-! ## Secret-manager data source

Translated from datasource/secretsmanager/data.go, from the point the
secret version payload was returned by the provider. The CRC-32C checksum
of the Go hash/crc32 package with the Castagnoli table is embedded as the
standard reflected bitwise computation over the payload bytes; the JSON
unmarshal used for key extraction is the external encoding/json package,
passed in as a function. -/

/-- Castagnoli polynomial in reversed bit order, as crc32.Castagnoli. -/
def crc32cPoly : Nat := 0x82F63B78

/-- One bit step of the reflected CRC computation. -/
def crc32cBitStep (crc : Nat) : Nat :=
  if crc % 2 == 1 then (crc / 2) ^^^ crc32cPoly else crc / 2

/-- Byte step: fold the byte into the low bits, then eight bit steps. -/
def crc32cByteStep (crc b : Nat) : Nat :=
  Nat.iterate crc32cBitStep 8 (crc ^^^ (b % 256))

/-- CRC-32C over a byte sequence, as crc32.Checksum with the Castagnoli
table: initial inversion, byte steps, final inversion. -/
def crc32c (data : List Nat) : Nat :=
  (data.foldl crc32cByteStep 0xFFFFFFFF) ^^^ 0xFFFFFFFF

set_option maxRecDepth 20000 in
/-- The standard CRC-32C check vector: the ASCII digits one to nine hash
to 0xE3069283. -/
theorem crc32c_check_vector :
    crc32c [0x31, 0x32, 0x33, 0x34, 0x35, 0x36, 0x37, 0x38, 0x39] = 0xE3069283 := by
  decide

/-- Lookup in a string-keyed map of strings. -/
def lookupStr : List (String × String) → String → Option String
  | [], _ => none
  | (k, v) :: rest, key => if k == key then some v else lookupStr rest key

/-- The secret version payload: its bytes and the optional provider
checksum. -/
structure SecretPayload where
  data : List Nat
  dataCrc32C : Option Int
deriving DecidableEq

/-- The checksum value reported in the output: the provider checksum, or
zero when the provider supplied none. -/
def providedChecksum (payload : SecretPayload) : Int :=
  match payload.dataCrc32C with
  | some c => c
  | none => 0

/-- Errors of the secretsmanager Execute from the payload on. -/
inductive SecretsError
  | integrityFailed (expected got : Int)
  | jsonParseFailed
  | keyNotFound (k : String)
deriving DecidableEq

/-- Output of the secretsmanager data source. -/
structure SecretsOutput where
  payload : List Nat
  value : String
  checksum : Int
deriving DecidableEq

/-- Execute of the secretsmanager data source from the fetched payload:
checksum verification, then optional key extraction, then the output
carrying the raw payload and the checksum (zero when none was supplied). -/
def secretsExecute (key : String) (unmarshal : List Nat → Option (List (String × String)))
    (payload : SecretPayload) : Except SecretsError SecretsOutput :=
  let checksum : Int := providedChecksum payload
  let computed : Nat := crc32c payload.data
  if payload.dataCrc32C.isSome && decide ((computed : Int) ≠ checksum) then
    Except.error (SecretsError.integrityFailed checksum computed)
  else if key != "" then
    match unmarshal payload.data with
    | none => Except.error SecretsError.jsonParseFailed
    | some m =>
      match lookupStr m key with
      | none => Except.error (SecretsError.keyNotFound key)
      | some v => Except.ok { payload := payload.data, value := v, checksum := checksum }
  else
    Except.ok { payload := payload.data, value := "", checksum := checksum }

/-- C7: a provider-supplied checksum that does not match the CRC-32C of
the payload is a hard integrity error with no output; every successful
lookup carries the raw payload and the checksum, zero when the provider
supplied none. -/
theorem C7_secret_checksum (key : String)
    (unmarshal : List Nat → Option (List (String × String))) (payload : SecretPayload) :
    (∀ c : Int, payload.dataCrc32C = some c → (crc32c payload.data : Int) ≠ c →
      secretsExecute key unmarshal payload =
        Except.error (SecretsError.integrityFailed c (crc32c payload.data))) ∧
    (∀ out, secretsExecute key unmarshal payload = Except.ok out →
      out.payload = payload.data ∧ out.checksum = providedChecksum payload ∧
      (payload.dataCrc32C = none → out.checksum = 0)) := by
  constructor
  · intro c hc hne
    have hpc : providedChecksum payload = c := by simp [providedChecksum, hc]
    unfold secretsExecute
    dsimp only
    rw [if_pos (by simp [hc, hpc, hne]), hpc]
  · intro out hout
    unfold secretsExecute at hout
    dsimp only at hout
    by_cases hcond : (payload.dataCrc32C.isSome &&
        decide ((crc32c payload.data : Int) ≠ providedChecksum payload)) = true
    · rw [if_pos hcond] at hout
      cases hout
    · rw [if_neg hcond] at hout
      by_cases hk : (key != "") = true
      · rw [if_pos hk] at hout
        cases hu : unmarshal payload.data with
        | none =>
          rw [hu] at hout
          cases hout
        | some m =>
          rw [hu] at hout
          dsimp only at hout
          cases hl : lookupStr m key with
          | none =>
            rw [hl] at hout
            cases hout
          | some v =>
            rw [hl] at hout
            injection hout with hout
            subst hout
            refine ⟨rfl, rfl, ?_⟩
            intro hnone
            simp [providedChecksum, hnone]
      · rw [if_neg hk] at hout
        injection hout with hout
        subst hout
        refine ⟨rfl, rfl, ?_⟩
        intro hnone
        simp [providedChecksum, hnone]

/-- Payload without a provider checksum, used by the C7 witness. -/
def c7PayloadNone : SecretPayload := { data := [1, 2, 3], dataCrc32C := none }

/-- Payload with a deliberately wrong checksum, used by the C7 witness. -/
def c7PayloadBad : SecretPayload := { data := [1, 2, 3], dataCrc32C := some 1 }

set_option maxRecDepth 20000 in
/-- Witness for C7: the corrupted payload is rejected with the integrity
error, and a checksum-free payload succeeds with checksum zero. -/
theorem C7_secret_checksum_witness :
    secretsExecute "" (fun _ => none) c7PayloadBad =
      Except.error (SecretsError.integrityFailed 1 (crc32c [1, 2, 3])) ∧
    ({ payload := [1, 2, 3], value := "", checksum := 0 } : SecretsOutput).payload =
      c7PayloadNone.data ∧
    ({ payload := [1, 2, 3], value := "", checksum := 0 } : SecretsOutput).checksum =
      providedChecksum c7PayloadNone := by
  refine ⟨?_, ?_, ?_⟩
  · exact (C7_secret_checksum "" (fun _ => none) c7PayloadBad).1 1 rfl (by decide)
  · exact ((C7_secret_checksum "" (fun _ => none) c7PayloadNone).2
      { payload := [1, 2, 3], value := "", checksum := 0 } (by rfl)).1
  · exact ((C7_secret_checksum "" (fun _ => none) c7PayloadNone).2
      { payload := [1, 2, 3], value := "", checksum := 0 } (by rfl)).2.1

/-! ## Parameter-manager data source

Translated from the parametermanager Execute (part_004), from the point
the declared format and the rendered payload were fetched; the JSON and
YAML unmarshalling belong to external packages and are passed in as
functions. -/

/-- Declared parameter format of the provider enum. -/
inductive ParamFormat
  | unspecified
  | unformatted
  | json
  | yaml
deriving DecidableEq

/-- Errors of the parametermanager Execute from the payload on. -/
inductive ParamError
  | jsonUnmarshalFailed
  | yamlUnmarshalFailed
  | unsupportedFormat
  | keyNotFound (k : String)
deriving DecidableEq

/-- Output of the parametermanager data source. -/
structure ParamOutput where
  payload : List Nat
  value : String
deriving DecidableEq

/-- Execute of the parametermanager data source from the fetched format
and rendered payload: with a key configured the payload is unmarshalled
per the declared format (JSON or YAML only, anything else rejected) and
the key extracted; with no key the raw payload is returned. -/
def paramExecute (key : String) (format : ParamFormat)
    (jsonUnmarshal yamlUnmarshal : List Nat → Option (List (String × String)))
    (payload : List Nat) : Except ParamError ParamOutput :=
  if key != "" then
    let parsed : Except ParamError (List (String × String)) :=
      match format with
      | ParamFormat.json =>
        match jsonUnmarshal payload with
        | none => Except.error ParamError.jsonUnmarshalFailed
        | some m => Except.ok m
      | ParamFormat.yaml =>
        match yamlUnmarshal payload with
        | none => Except.error ParamError.yamlUnmarshalFailed
        | some m => Except.ok m
      | _ => Except.error ParamError.unsupportedFormat
    match parsed with
    | Except.error e => Except.error e
    | Except.ok m =>
      match lookupStr m key with
      | none => Except.error (ParamError.keyNotFound key)
      | some v => Except.ok { payload := payload, value := v }
  else
    Except.ok { payload := payload, value := "" }

/-- C8: with a non-empty key, a JSON or YAML format is unmarshalled
accordingly, a missing key is an error and a present key is extracted;
any other declared format is rejected with the explicit unsupported-format
error; with an empty key the raw payload is returned with no extracted
value. -/
theorem C8_param_key_extraction (key : String) (format : ParamFormat)
    (ju yu : List Nat → Option (List (String × String))) (payload : List Nat) :
    (key ≠ "" → (format = ParamFormat.unformatted ∨ format = ParamFormat.unspecified) →
      paramExecute key format ju yu payload = Except.error ParamError.unsupportedFormat) ∧
    (key ≠ "" → format = ParamFormat.json → ∀ m, ju payload = some m →
      (lookupStr m key = none →
        paramExecute key format ju yu payload = Except.error (ParamError.keyNotFound key)) ∧
      (∀ v, lookupStr m key = some v →
        paramExecute key format ju yu payload = Except.ok { payload := payload, value := v })) ∧
    (key ≠ "" → format = ParamFormat.yaml → ∀ m, yu payload = some m →
      (lookupStr m key = none →
        paramExecute key format ju yu payload = Except.error (ParamError.keyNotFound key)) ∧
      (∀ v, lookupStr m key = some v →
        paramExecute key format ju yu payload = Except.ok { payload := payload, value := v })) ∧
    (key = "" →
      paramExecute key format ju yu payload = Except.ok { payload := payload, value := "" }) := by
  refine ⟨?_, ?_, ?_, ?_⟩
  · intro hk hf
    unfold paramExecute
    rw [if_pos (by simp [hk])]
    rcases hf with hf | hf <;> rw [hf]
  · intro hk hf m hm
    unfold paramExecute
    rw [if_pos (by simp [hk]), hf]
    dsimp only
    rw [hm]
    dsimp only
    constructor
    · intro hl
      rw [hl]
    · intro v hl
      rw [hl]
  · intro hk hf m hm
    unfold paramExecute
    rw [if_pos (by simp [hk]), hf]
    dsimp only
    rw [hm]
    dsimp only
    constructor
    · intro hl
      rw [hl]
    · intro v hl
      rw [hl]
  · intro hk
    unfold paramExecute
    rw [if_neg (by simp [hk])]

/-- Unmarshal function used by the C8 witness. -/
def c8Unmarshal : List Nat → Option (List (String × String)) :=
  fun _ => some [("project_id", "test_id_1"), ("foo", "bar")]

/-- Witness for C8 at concrete format and payload combinations. -/
theorem C8_param_key_extraction_witness :
    paramExecute "foo" ParamFormat.unformatted c8Unmarshal c8Unmarshal [7] =
      Except.error ParamError.unsupportedFormat ∧
    paramExecute "foo" ParamFormat.json c8Unmarshal c8Unmarshal [7] =
      Except.ok { payload := [7], value := "bar" } ∧
    paramExecute "foo" ParamFormat.yaml c8Unmarshal c8Unmarshal [7] =
      Except.ok { payload := [7], value := "bar" } ∧
    paramExecute "missing" ParamFormat.json c8Unmarshal c8Unmarshal [7] =
      Except.error (ParamError.keyNotFound "missing") ∧
    paramExecute "" ParamFormat.unformatted c8Unmarshal c8Unmarshal [7] =
      Except.ok { payload := [7], value := "" } := by
  refine ⟨?_, ?_, ?_, ?_, ?_⟩
  · exact (C8_param_key_extraction "foo" ParamFormat.unformatted c8Unmarshal c8Unmarshal
      [7]).1 (by decide) (Or.inl rfl)
  · exact ((C8_param_key_extraction "foo" ParamFormat.json c8Unmarshal c8Unmarshal
      [7]).2.1 (by decide) rfl [("project_id", "test_id_1"), ("foo", "bar")] rfl).2 "bar" (by decide)
  · exact ((C8_param_key_extraction "foo" ParamFormat.yaml c8Unmarshal c8Unmarshal
      [7]).2.2.1 (by decide) rfl [("project_id", "test_id_1"), ("foo", "bar")] rfl).2 "bar" (by decide)
  · exact ((C8_param_key_extraction "missing" ParamFormat.json c8Unmarshal c8Unmarshal
      [7]).2.1 (by decide) rfl [("project_id", "test_id_1"), ("foo", "bar")] rfl).1 (by decide)
  · exact (C8_param_key_extraction "" ParamFormat.unformatted c8Unmarshal c8Unmarshal
      [7]).2.2.2 rfl

end PackerGce
